import Mathlib

/-
Verification of the chart-generator web service (src/app.py).

The service accepts a tabular data file, extracts (category, value) pairs
from its first two columns, inserts a chart into a slide of a presentation
document, and keeps the generated buffer in an in-memory registry.

The embedding below translates the Python source into Lean definitions:
  - numeric cells and coerced chart values are exact rationals; the float
    NaN produced by the tabular loader for missing cells is a dedicated
    constructor (no floating-point rounding is involved in any claim);
  - fallible Python operations (int() parsing, list indexing) become
    Option/Except values; the catch-all handler maps Except errors to 500;
  - the string-to-float parser models the decimal forms accepted by the
    Python float constructor (sign, digits, decimal point, exponent); the
    special spellings inf/nan/underscored digits are out of scope, and no
    claim depends on them.
-/

namespace ChartGen

/-! ## Python numeric string parsing -/

/-- Whitespace for the purposes of Python numeric string parsing. -/
def isSpaceChar (c : Char) : Bool :=
  c == ' ' || c == '\t' || c == '\n' || c == '\r'

/-- Strip leading and trailing whitespace from a character list. -/
def trimChars (cs : List Char) : List Char :=
  ((cs.dropWhile isSpaceChar).reverse.dropWhile isSpaceChar).reverse

/-- Split a character list on a separator character (Python str.split with
a single-character separator): the separators are dropped and the pieces,
possibly empty, are returned in order. -/
def splitOnChar (sep : Char) : List Char → List (List Char)
  | [] => [[]]
  | c :: rest =>
    let r := splitOnChar sep rest
    if c == sep then [] :: r
    else
      match r with
      | [] => [[c]]
      | h :: t => (c :: h) :: t

/-- Numeric value of a list of decimal digit characters (0 for the empty
list); helper for the float and int parsers. -/
def digitsVal (cs : List Char) : Nat :=
  cs.foldl (fun a c => 10 * a + (c.toNat - 48)) 0

/-- Parse a nonempty all-digit character list as a natural number. -/
def parseNatDigits (cs : List Char) : Option Nat :=
  if cs.isEmpty then none
  else if cs.all (fun c => c.isDigit) then some (digitsVal cs)
  else none

/-- Strip one optional leading sign, returning the sign factor and the rest. -/
def parseSign : List Char → Int × List Char
  | '+' :: rest => (1, rest)
  | '-' :: rest => (-1, rest)
  | cs => (1, cs)

/-- Parse the mantissa part of a float literal: digits, optionally with
one decimal point, at least one digit overall. The result is the pair of
the digit value (decimal point removed) and the number of fraction
digits, so the mantissa value is the first component divided by ten to
the second. -/
def parseMantissa (cs : List Char) : Option (Nat × Nat) :=
  match splitOnChar '.' cs with
  | [ds] => (parseNatDigits ds).map (fun n => (n, 0))
  | [ds, fs] =>
    if ds.isEmpty && fs.isEmpty then none
    else if ds.all (fun c => c.isDigit) && fs.all (fun c => c.isDigit) then
      some (digitsVal ds * 10 ^ fs.length + digitsVal fs, fs.length)
    else none
  | _ => none

/-- The Python float constructor applied to a string: surrounding
whitespace is ignored, then an optional sign, decimal mantissa and
optional exponent are accepted; the result is the exact rational value.
Returns none where Python raises ValueError. -/
def parseFloat (s : String) : Option Rat :=
  let cs := (trimChars s.data).map Char.toLower
  let sgRest := parseSign cs
  match splitOnChar 'e' sgRest.2 with
  | [m] => (parseMantissa m).map (fun p => mkRat (sgRest.1 * p.1) (10 ^ p.2))
  | [m, ex] =>
    let esgRest := parseSign ex
    match parseMantissa m, parseNatDigits esgRest.2 with
    | some p, some en =>
      let e : Int := esgRest.1 * en - p.2
      some (if 0 ≤ e then mkRat (sgRest.1 * p.1 * 10 ^ e.toNat) 1
            else mkRat (sgRest.1 * p.1) (10 ^ (-e).toNat))
    | _, _ => none
  | _ => none

/-- The Python int constructor applied to a string: optional surrounding
whitespace and sign, then decimal digits. Returns none where Python raises
ValueError. -/
def pyInt (s : String) : Option Int :=
  match trimChars s.data with
  | '+' :: ds => (parseNatDigits ds).map (fun n => (n : Int))
  | '-' :: ds => (parseNatDigits ds).map (fun n => -(n : Int))
  | ds => (parseNatDigits ds).map (fun n => (n : Int))

/-- Python str.strip applied with the single character percent: removes
every leading and trailing percent sign (app.py line 108). -/
def stripPercent (s : String) : String :=
  String.mk (((s.data.dropWhile (fun c => c == '%')).reverse.dropWhile
      (fun c => c == '%')).reverse)

/-! ## Cells and numeric coercion (app.py lines 101-115) -/

/-- A cell of the loaded table: text, an exact number, the loader float
NaN standing for a missing/empty cell, or the Python None object. -/
inductive Cell where
  | text (s : String)
  | num (q : Rat)
  | nan
  | null
deriving DecidableEq, Repr

/-- A Python float value as it appears among the chart values: an exact
rational or the NaN object. -/
inductive PyFloat where
  | num (q : Rat)
  | nan
deriving DecidableEq, Repr

/-- Value coercion of app.py lines 105-115: a string containing a percent
sign is stripped and parsed (0 on ValueError); any other cell goes through
the float constructor, with ValueError/TypeError giving 0. The float
constructor applied to the NaN cell succeeds and returns NaN; applied to
None it raises TypeError. -/
def coerceValue (val : Cell) : PyFloat :=
  match val with
  | .text s =>
    if s.data.contains '%' then
      match parseFloat (stripPercent s) with
      | some q => .num q
      | none => .num 0
    else
      match parseFloat s with
      | some q => .num q
      | none => .num 0
  | .num q => .num q
  | .nan => .nan
  | .null => .num 0

/-- Reference coercion following the specification words: text containing
a percent sign is stripped and parsed with zero on parse failure;
otherwise direct numeric coercion with zero on coercion failure or on
non-numeric/null input (so the missing-cell NaN and None both give zero). -/
def coerceValueSpec (val : Cell) : PyFloat :=
  match val with
  | .text s =>
    if s.data.contains '%' then .num ((parseFloat (stripPercent s)).getD 0)
    else .num ((parseFloat s).getD 0)
  | .num q => .num q
  | .nan => .num 0
  | .null => .num 0

/-! ## The loaded table and series extraction (app.py lines 98-118) -/

/-- The rectangular table produced by the tabular loader (a pandas
DataFrame): a column count and the data rows, each row having exactly that
many cells. Byte-level parsing of the uploaded file is outside the model;
an uploaded data file carries the table it parses to. -/
structure DataFrame where
  ncols : Nat
  rows : List (List Cell)
  hrect : ∀ r ∈ rows, r.length = ncols

/-- Column j of the table, as df.iloc[:, j].tolist(): one cell per row, in
row order. The default is never reached on indices below ncols. -/
def dfCol (df : DataFrame) (j : Nat) : List Cell :=
  df.rows.map (fun r => r.getD j Cell.nan)

/-- The 400 message of app.py line 99. -/
def insufficientColumnsMsg : String :=
  "Data must have at least two columns (categories and values)"

/-- Series extraction of app.py lines 98-118: with fewer than two columns
the insufficient-columns client error is raised; otherwise column 0 is the
category list and column 1, coerced cell by cell, is the value list. -/
def extractSeries (df : DataFrame) : Except String (List Cell × List PyFloat) :=
  if df.ncols < 2 then Except.error insufficientColumnsMsg
  else Except.ok (dfCol df 0, (dfCol df 1).map coerceValue)

/-- Python dict lookup on a string-keyed association list: the value at
the first (and, for a dict, only) occurrence of the key. -/
def dictGet {α : Type} (k : String) : List (String × α) → Option α
  | [] => none
  | (k1, v) :: rest => if k = k1 then some v else dictGet k rest

/-! ## Chart kinds and the chart shape (app.py lines 22-29, 120-134) -/

/-- The underlying chart categories of python-pptx used by the service. -/
inductive XLChartType where
  | pie
  | columnClustered
  | line
  | xyScatter
  | area
deriving DecidableEq, Repr

/-- Legend positions of python-pptx (only right is used by the service). -/
inductive XLLegendPosition where
  | bottom
  | corner
  | left
  | right
  | top
deriving DecidableEq, Repr

/-- CHART_TYPE_MAP of app.py lines 23-29, as the association list backing
the Python dict. -/
def CHART_TYPE_MAP : List (String × XLChartType) :=
  [("pie", XLChartType.pie),
   ("bar", XLChartType.columnClustered),
   ("line", XLChartType.line),
   ("scatter", XLChartType.xyScatter),
   ("area", XLChartType.area)]

/-- CHART_TYPE_MAP.get(chart_type, XL_CHART_TYPE.COLUMN_CLUSTERED) of
app.py line 123: dict lookup with the clustered-column default. -/
def lookupChartType (s : String) : XLChartType :=
  match dictGet s CHART_TYPE_MAP with
  | some t => t
  | none => XLChartType.columnClustered

/-- Inches(n) of pptx.util: n inches in English Metric Units. -/
def Inches (n : Nat) : Nat := n * 914400

/-- The data-label number format set for pie charts (app.py line 134). -/
def pieLabelFormat : String := "0.0\"%\""

/-- A chart shape as configured by app.py lines 117-134: chart data
(categories plus the single series named Values), the placeholder frame,
the right-positioned legend, and the pie-only data labels. -/
structure Shape where
  chartXlType : XLChartType
  categories : List Cell
  seriesName : String
  seriesValues : List PyFloat
  x : Nat
  y : Nat
  cx : Nat
  cy : Nat
  hasLegend : Bool
  legendPosition : XLLegendPosition
  plotHasDataLabels : Bool
  dataLabelsNumberFormat : Option String
deriving DecidableEq, Repr

/-- Build the chart shape exactly as app.py lines 117-134 configure it:
the kind is looked up in CHART_TYPE_MAP with the clustered-column
fallback, the frame is the fixed two-by-two-inch offset with a
six-by-four-inch extent, the legend is enabled on the right, and data
labels with the percent number format are enabled only when the requested
kind is the string pie. -/
def buildChart (chartType : String) (cats : List Cell) (vals : List PyFloat) : Shape :=
  { chartXlType := lookupChartType chartType
    categories := cats
    seriesName := "Values"
    seriesValues := vals
    x := Inches 2
    y := Inches 2
    cx := Inches 6
    cy := Inches 4
    hasLegend := true
    legendPosition := XLLegendPosition.right
    plotHasDataLabels := chartType == "pie"
    dataLabelsNumberFormat := if chartType == "pie" then some pieLabelFormat else none }

/-! ## Presentation documents and slide padding (app.py lines 71-91) -/

/-- A slide: the index of the layout it was created from the last time it
was added, and its shapes (only the charts added by the service matter). -/
structure Slide where
  layoutIdx : Nat
  shapes : List Shape
deriving DecidableEq, Repr

/-- A presentation document: its slides and the names of its slide
layouts. -/
structure Prs where
  slides : List Slide
  layouts : List String
deriving DecidableEq, Repr

/-- Layout names of the default template that Presentation() loads when no
template file is supplied (the python-pptx built-in template; it ships
with no slides). -/
def defaultLayoutNames : List String :=
  ["Title Slide", "Title and Content", "Section Header", "Two Content",
   "Comparison", "Title Only", "Blank", "Content with Caption",
   "Picture with Caption", "Title and Vertical Text", "Vertical Title and Text"]

/-- Presentation() with no argument: the default document, empty of
slides. -/
def defaultPresentation : Prs :=
  { slides := [], layouts := defaultLayoutNames }

/-- Substring test on character lists, as the Python in operator on
strings: the needle occurs contiguously in the haystack. -/
def containsSub (needle : List Char) : List Char → Bool
  | [] => needle.isEmpty
  | c :: rest => needle.isPrefixOf (c :: rest) || containsSub needle rest

/-- The layout test of app.py line 84: the name is truthy (nonempty) and
its lowercase form contains blank or title. -/
def layoutMatches (name : String) : Bool :=
  !name.data.isEmpty &&
    (containsSub "blank".data (name.data.map Char.toLower) ||
     containsSub "title".data (name.data.map Char.toLower))

/-- The enumerate loop of app.py lines 82-86 starting at index k: the
index of the first matching layout name, or the fixed default 5 when none
matches. -/
def selectLayoutFrom : Nat → List String → Nat
  | _, [] => 5
  | k, n :: rest => if layoutMatches n then k else selectLayoutFrom (k + 1) rest

/-- Layout selection for one padding slide (app.py lines 82-86). -/
def selectLayout (names : List String) : Nat :=
  selectLayoutFrom 0 names

/-- Python exceptions reaching the catch-all handler. -/
inductive PyErr where
  | valueError (msg : String)
  | indexError (msg : String)
  | typeError (msg : String)
deriving DecidableEq, Repr

/-- str(e) as used by the 500 response body. -/
def pyErrMsg : PyErr → String
  | .valueError m => m
  | .indexError m => m
  | .typeError m => m

/-- The while loop of app.py lines 80-87, by the number of iterations left
(each iteration appends exactly one slide, so the loop runs until the
count reaches the target): every appended slide is created from the layout
selected by selectLayout, and selecting an index outside the layout list
raises IndexError. -/
def padSlides : Nat → Prs → Except PyErr Prs
  | 0, prs => Except.ok prs
  | n + 1, prs =>
    let li := selectLayout prs.layouts
    if li < prs.layouts.length then
      padSlides n { prs with slides := prs.slides ++ [{ layoutIdx := li, shapes := [] }] }
    else Except.error (PyErr.indexError "slide layout index out of range")

/-- Make sure the document has at least target slides (app.py lines
80-87): the while loop runs exactly (target minus current count) times
when that is positive. -/
def ensureSlides (prs : Prs) (target : Int) : Except PyErr Prs :=
  padSlides (target - (prs.slides.length : Int)).toNat prs

/-- Python list indexing semantics for a list of the given length:
nonnegative indices must be below the length, negative indices count from
the end; out of range gives none (IndexError). -/
def pyIndex (len : Nat) (i : Int) : Option Nat :=
  if 0 ≤ i then
    if i < (len : Int) then some i.toNat else none
  else
    if 0 ≤ (len : Int) + i then some ((len : Int) + i).toNat else none

/-- slide.shapes.add_chart of app.py lines 121-125 on the slide at the
resolved index: the chart shape is appended to that slide. -/
def insertChartAt (prs : Prs) (si : Nat) (chart : Shape) : Prs :=
  let slide := prs.slides.getD si { layoutIdx := 0, shapes := [] }
  { prs with slides := prs.slides.set si { slide with shapes := slide.shapes ++ [chart] } }

/-! ## The HTTP layer (app.py lines 38-203) -/

/-- An uploaded data file: its client-supplied name and the table its
bytes parse to (read_csv / read_excel byte parsing is abstracted: the file
carries its parse result). -/
structure UploadedData where
  filename : String
  table : DataFrame

/-- An uploaded template file: its client-supplied name and the
presentation its bytes load to. -/
structure UploadedTemplate where
  filename : String
  prs : Prs

/-- A multipart /generate-chart request: the two file parts and the two
form fields, each possibly absent. Form fields arrive as strings. -/
structure Request where
  dataFile : Option UploadedData
  templateFile : Option UploadedTemplate
  chartType : Option String
  slidePosition : Option String

/-- app.py line 47: request.form.get with the int default 1, passed to
int(). An absent field gives 1; a present field is parsed as a Python int,
and an unparseable value raises ValueError (caught as a 500). -/
def parseSlidePosition (field : Option String) : Except PyErr Int :=
  match field with
  | none => Except.ok 1
  | some s =>
    match pyInt s with
    | some n => Except.ok n
    | none => Except.error (PyErr.valueError ("invalid literal for int() with base 10: " ++ s))

/-- Suffix test on strings (Python str.endswith). -/
def strEndsWith (s pat : String) : Bool :=
  pat.data.reverse.isPrefixOf s.data.reverse

/-- The extension test of app.py lines 64-66: the saved path ends with
.csv, .xlsx or .xls. -/
def supportedData (filename : String) : Bool :=
  strEndsWith filename ".csv" || strEndsWith filename ".xlsx" || strEndsWith filename ".xls"

/-- The base document of app.py lines 52-77: the template is used only
when the templateFile part is present with a truthy (nonempty) filename;
otherwise Presentation() starts the default document. -/
def basePrs (req : Request) : Prs :=
  match req.templateFile with
  | some t => if t.filename = "" then defaultPresentation else t.prs
  | none => defaultPresentation

/-- The table the handler loads for a request, when it loads one: requires
the data file part and a supported extension. -/
def loadedTable (req : Request) : Option DataFrame :=
  match req.dataFile with
  | none => none
  | some f => if supportedData f.filename then some f.table else none

/-- Outcome of the handler body before the catch-all: an explicit 400
return or a generated document. -/
inductive GenResult where
  | clientError (msg : String)
  | success (chartType : String) (doc : Prs)
deriving DecidableEq, Repr

/-- app.py lines 71-138 after the data file is loaded: create or load the
presentation, pad slides up to the target position, resolve the target
slide (line 91, before the column check of line 98), then extract the
series and insert the configured chart into that slide. -/
def afterLoad (req : Request) (f : UploadedData) (slidePos : Int) : Except PyErr GenResult :=
  match ensureSlides (basePrs req) slidePos with
  | Except.error e => Except.error e
  | Except.ok prs =>
    match pyIndex prs.slides.length (slidePos - 1) with
    | none => Except.error (PyErr.indexError "slide index out of range")
    | some si =>
      match extractSeries f.table with
      | Except.error m => Except.ok (GenResult.clientError m)
      | Except.ok (cats, vals) =>
        Except.ok (GenResult.success (req.chartType.getD "bar")
          (insertChartAt prs si (buildChart (req.chartType.getD "bar") cats vals)))

/-- The /generate-chart handler body (app.py lines 40-138): missing data
file check, form field reads, extension dispatch, then the post-load
pipeline. Errors escaping to the catch-all are the Except.error cases. -/
def generateChartCore (req : Request) : Except PyErr GenResult :=
  match req.dataFile with
  | none => Except.ok (GenResult.clientError "No data file provided")
  | some f =>
    match parseSlidePosition req.slidePosition with
    | Except.error e => Except.error e
    | Except.ok slidePos =>
      if supportedData f.filename then
        afterLoad req f slidePos
      else
        Except.ok (GenResult.clientError ("Unsupported file format: " ++ f.filename))

/-- A registry entry (app.py lines 146-151): the generated buffer (kept as
the document it serializes), display filename, creation timestamp in
seconds, and content type. -/
structure Artifact where
  buffer : Prs
  filename : String
  created : Int
  contentType : String
deriving DecidableEq, Repr

/-- GENERATED_FILES: an insertion-ordered string-keyed mapping. -/
abbrev Registry := List (String × Artifact)

/-- Python dict assignment: replace the value in place when the key
exists, otherwise append the new pair. -/
def dictInsert (k : String) (v : Artifact) : Registry → Registry
  | [] => [(k, v)]
  | (k1, v1) :: rest =>
    if k1 = k then (k, v) :: rest else (k1, v1) :: dictInsert k v rest

/-- The content type stored with every generated file (app.py line 150). -/
def pptxContentType : String :=
  "application/vnd.openxmlformats-officedocument.presentationml.presentation"

/-- A JSON response of the /generate-chart or / routes: status code plus
the body fields that may appear. -/
structure JsonResp where
  status : Nat
  error : Option String := none
  message : Option String := none
  downloadUrl : Option String := none
  previewUrl : Option String := none
  chartType : Option String := none
deriving DecidableEq, Repr

/-- The 400 insufficient-columns response of app.py line 99. -/
def insufficientResp : JsonResp :=
  { status := 400, error := some insufficientColumnsMsg }

/-- The full /generate-chart handler (app.py lines 38-168): the body runs
under the catch-all that turns any exception into a 500 with str(e); a
clientError becomes a 400; on success the buffer is stored in the registry
under the timestamp-and-kind identifier and the URLs are returned. nowKey
is the strftime second-resolution timestamp string, now the creation time
in seconds. -/
def generateChart (req : Request) (reg : Registry) (nowKey : String) (now : Int) :
    Registry × JsonResp :=
  match generateChartCore req with
  | Except.error e => (reg, { status := 500, error := some (pyErrMsg e) })
  | Except.ok (GenResult.clientError m) => (reg, { status := 400, error := some m })
  | Except.ok (GenResult.success ct doc) =>
    let fileId := nowKey ++ "_" ++ ct
    let fname := "chart_" ++ fileId ++ ".pptx"
    let art : Artifact :=
      { buffer := doc
        filename := fname
        created := now
        contentType := pptxContentType }
    (dictInsert fileId art reg,
     { status := 200,
       message := some "Chart generated successfully",
       downloadUrl := some ("/download-chart/" ++ fileId),
       previewUrl := some ("https://via.placeholder.com/800x450.png?text=Chart+Preview+" ++ ct),
       chartType := some ct })

/-- Result of the /download-chart route: the 404 JSON error, or the 200
binary stream with its content type and attachment filename. -/
inductive DownloadResult where
  | jsonError (status : Nat) (msg : String)
  | fileStream (buf : Prs) (mime : String) (fname : String)
deriving DecidableEq, Repr

/-- The /download-chart/(id) handler (app.py lines 170-183): a pure lookup
in the registry; an unknown identifier gives the 404 body, a known one
streams the stored buffer with the stored content type and filename
(send_file responds 200). The registry is returned unchanged: the lookup
never deletes. -/
def downloadChart (reg : Registry) (fileId : String) : Registry × DownloadResult :=
  match dictGet fileId reg with
  | none => (reg, DownloadResult.jsonError 404 "File not found")
  | some a => (reg, DownloadResult.fileStream a.buffer a.contentType a.filename)

/-- The deletion loop of app.py lines 191-198 over the listed keys: each
entry whose age exceeds maxAge is removed and counted; the rest survive in
order. -/
def sweepLoop (now maxAge : Int) : Registry → Registry × Nat
  | [] => ([], 0)
  | e :: rest =>
    let r := sweepLoop now maxAge rest
    if maxAge < now - e.2.created then (r.1, r.2 + 1) else (e :: r.1, r.2)

/-- Body of the /cleanup response (app.py lines 200-203). -/
structure CleanupResp where
  message : String
  remaining : Nat
deriving DecidableEq, Repr

/-- The /cleanup handler (app.py lines 186-203): sweep with the fixed
3600-second threshold, then report the removed count in the message and
the post-sweep registry size as remaining. -/
def cleanup (reg : Registry) (now : Int) : Registry × CleanupResp :=
  let r := sweepLoop now 3600 reg
  (r.1,
   { message := "Cleanup complete. Removed " ++ toString r.2 ++ " old files.",
     remaining := r.1.length })

/-! ## Helper lemmas -/

theorem list_get?_set_self {α : Type} (l : List α) (i : Nat) (a : α) (h : i < l.length) :
    (l.set i a).get? i = some a := by
  induction l generalizing i with
  | nil => simp at h
  | cons x t ih =>
    cases i with
    | zero => rfl
    | succ n => simpa using ih n (by simpa using h)

theorem length_filter_not_add {α : Type} (p : α → Bool) (l : List α) :
    (l.filter p).length + (l.filter (fun a => !p a)).length = l.length := by
  induction l with
  | nil => rfl
  | cons a t ih => by_cases h : p a <;> simp [List.filter_cons, h] <;> omega

/-! ## Theorems: value coercion (claim C1) -/

/-- C1 counterexample: the claim says every value cell coerces exactly as
the reference definition, in particular that a null/empty cell coerces to
zero. The tabular loader represents an empty cell as the float NaN, and the
float constructor applied to NaN succeeds and returns NaN (no
ValueError/TypeError is raised), so the code appends NaN while the
reference definition yields zero. -/
theorem coerce_nan_counterexample :
    coerceValue Cell.nan ≠ coerceValueSpec Cell.nan := by decide

/-- C1 (amended): for every value cell other than the loader NaN, the
coerced value equals the reference definition; the specific examples hold
(the text cell 45 percent coerces to 45, the text cell abc to 0, the
number 3.5 to 3.5, the Python None object to 0), but the NaN cell
coerces to NaN rather than zero. -/
theorem coerce_matches_spec_off_nan :
    (∀ c : Cell, c ≠ Cell.nan → coerceValue c = coerceValueSpec c) ∧
    coerceValue (Cell.text "45%") = PyFloat.num 45 ∧
    coerceValue (Cell.text "abc") = PyFloat.num 0 ∧
    coerceValue (Cell.num (mkRat 7 2)) = PyFloat.num (mkRat 7 2) ∧
    coerceValue Cell.null = PyFloat.num 0 ∧
    coerceValue Cell.nan = PyFloat.nan := by
  refine ⟨?_, by decide, by decide, rfl, rfl, rfl⟩
  intro c hc
  cases c with
  | text s =>
    simp only [coerceValue, coerceValueSpec]
    split
    · rcases h : parseFloat (stripPercent s) with _ | q <;> simp [h]
    · rcases h : parseFloat s with _ | q <;> simp [h]
  | num q => rfl
  | nan => exact absurd rfl hc
  | null => rfl

/-- C1 witness: the amended equivalence applied at the concrete None
cell. -/
theorem coerce_matches_spec_off_nan_witness :
    coerceValue Cell.null = coerceValueSpec Cell.null :=
  coerce_matches_spec_off_nan.1 Cell.null (by decide)

/-! ## Theorems: series extraction shape (claim C2) -/

/-- C2: for every table with at least two columns and N rows, extraction
succeeds, the category and value lists both have exactly N entries (so the
Series has exactly N category-value pairs), and the categories are column
0 of the table in row order. -/
theorem extract_series_shape (df : DataFrame) (h : 2 ≤ df.ncols) :
    ∃ cats vals, extractSeries df = Except.ok (cats, vals) ∧
      cats.length = df.rows.length ∧ vals.length = df.rows.length ∧
      (cats.zip vals).length = df.rows.length ∧ cats = dfCol df 0 := by
  refine ⟨dfCol df 0, (dfCol df 1).map coerceValue, ?_, by simp [dfCol], by simp [dfCol],
    by simp [dfCol, List.length_zip], rfl⟩
  rw [extractSeries, if_neg (by omega)]

/-- C2 witness: extraction shape at a concrete two-column, two-row
table. -/
theorem extract_series_shape_witness :
    ∃ cats vals,
      extractSeries ⟨2, [[Cell.text "a", Cell.num 1], [Cell.text "b", Cell.text "45%"]],
        by decide⟩ = Except.ok (cats, vals) ∧
      cats.length = 2 ∧ vals.length = 2 ∧ (cats.zip vals).length = 2 ∧
      cats = dfCol ⟨2, [[Cell.text "a", Cell.num 1], [Cell.text "b", Cell.text "45%"]],
        by decide⟩ 0 :=
  extract_series_shape _ (by decide)

/-! ## Theorems: pie data labels (claim C7) -/

/-- C7: the inserted chart has per-segment data labels enabled, with the
one-decimal percent number format, exactly when the requested chart kind is
the string pie; for every other kind the labels are disabled and no number
format is set. -/
theorem pie_data_labels_iff (s : String) (cats : List Cell) (vals : List PyFloat) :
    ((buildChart s cats vals).plotHasDataLabels = true ↔ s = "pie") ∧
    ((buildChart s cats vals).dataLabelsNumberFormat = some pieLabelFormat ↔ s = "pie") ∧
    ((buildChart s cats vals).dataLabelsNumberFormat = none ↔ ¬s = "pie") := by
  by_cases hs : s = "pie" <;> simp [buildChart, hs]

/-! ## Theorems: download lookup (claim C9) -/

/-- C9: the download handler returns the 404 File-not-found body exactly
when the identifier is absent from the registry; when present, it returns
the stream of the stored buffer with the stored content type and stored
filename; and the registry is left unchanged by the lookup, so the
download stays available until the entry is swept or overwritten. -/
theorem download_chart_lookup (reg : Registry) (fid : String) :
    ((downloadChart reg fid).2 = DownloadResult.jsonError 404 "File not found" ↔
      dictGet fid reg = none) ∧
    (∀ a, dictGet fid reg = some a →
      (downloadChart reg fid).2 = DownloadResult.fileStream a.buffer a.contentType a.filename) ∧
    (downloadChart reg fid).1 = reg := by
  rcases h : dictGet fid reg with _ | a <;> simp [downloadChart, h]

/-- C9 witness: a stored artifact is streamed back with its stored
fields. -/
theorem download_chart_lookup_witness :
    (downloadChart [("20240101000000_bar", ⟨⟨[], []⟩, "chart_x.pptx", 0, pptxContentType⟩)]
        "20240101000000_bar").2 =
      DownloadResult.fileStream (⟨[], []⟩ : Prs) pptxContentType "chart_x.pptx" :=
  (download_chart_lookup _ _).2.1 ⟨⟨[], []⟩, "chart_x.pptx", 0, pptxContentType⟩ rfl

/-! ## Theorems: unknown chart kinds (claim C6) -/

/-- C6: for every chart kind outside the enumerated set, the dict lookup
falls back to the clustered-column type, the same as for bar, and the
whole configured chart shape is identical to the one built for bar — so
nothing on the chart-kind path can fail for an unrecognized kind. -/
theorem unknown_chart_kind (s : String)
    (h : s ∉ ["pie", "bar", "line", "scatter", "area"]) :
    lookupChartType s = XLChartType.columnClustered ∧
    lookupChartType s = lookupChartType "bar" ∧
    ∀ cats vals, buildChart s cats vals = buildChart "bar" cats vals := by
  simp only [List.mem_cons, List.not_mem_nil, or_false, not_or] at h
  obtain ⟨h1, h2, h3, h4, h5⟩ := h
  have hl : lookupChartType s = XLChartType.columnClustered := by
    simp [lookupChartType, CHART_TYPE_MAP, dictGet, h1, h2, h3, h4, h5]
  refine ⟨hl, by rw [hl]; rfl, ?_⟩
  intro cats vals
  have e1 : (s == "pie") = false := beq_eq_false_iff_ne.mpr h1
  simp only [buildChart, hl, e1]
  rfl

/-- C6 witness: the fallback at the concrete unrecognized kind foo. -/
theorem unknown_chart_kind_witness :
    lookupChartType "foo" = XLChartType.columnClustered ∧
    lookupChartType "foo" = lookupChartType "bar" ∧
    ∀ cats vals, buildChart "foo" cats vals = buildChart "bar" cats vals :=
  unknown_chart_kind "foo" (by decide)

/-! ## Theorems: layout selection for padding slides (claim C4) -/

theorem selectLayoutFrom_no_match (k : Nat) (names : List String)
    (h : ∀ n ∈ names, layoutMatches n = false) : selectLayoutFrom k names = 5 := by
  induction names generalizing k with
  | nil => rfl
  | cons n rest ih =>
    have hn := h n (List.mem_cons_self n rest)
    simp only [selectLayoutFrom, hn, Bool.false_eq_true, if_false]
    exact ih (k + 1) (fun m hm => h m (List.mem_cons_of_mem n hm))

theorem selectLayoutFrom_first_match (names : List String) (i k : Nat)
    (hi : i < names.length)
    (hmatch : layoutMatches (names.getD i "") = true)
    (hbefore : ∀ j, j < i → layoutMatches (names.getD j "") = false) :
    selectLayoutFrom k names = k + i := by
  induction names generalizing i k with
  | nil => simp at hi
  | cons n rest ih =>
    cases i with
    | zero =>
      simp only [List.getD_cons_zero] at hmatch
      simp [selectLayoutFrom, hmatch]
    | succ i2 =>
      have h0 : layoutMatches n = false := by
        have := hbefore 0 (Nat.succ_pos i2)
        simpa using this
      simp only [selectLayoutFrom, h0, Bool.false_eq_true, if_false]
      have hr := ih i2 (k + 1) (by simpa using hi) (by simpa using hmatch)
        (fun j hj => by
          have := hbefore (j + 1) (Nat.succ_lt_succ hj)
          simpa using this)
      rw [hr]
      omega

theorem padSlides_ok (n : Nat) (prs prs2 : Prs) (h : padSlides n prs = Except.ok prs2) :
    prs2.layouts = prs.layouts ∧
    prs2.slides = prs.slides ++
      List.replicate n { layoutIdx := selectLayout prs.layouts, shapes := [] } := by
  induction n generalizing prs with
  | zero =>
    simp only [padSlides, Except.ok.injEq] at h
    subst h
    simp
  | succ m ih =>
    simp only [padSlides] at h
    split at h
    · obtain ⟨hlay, hsl⟩ := ih _ h
      refine ⟨hlay, ?_⟩
      rw [hsl]
      simp [List.replicate_succ]
    · exact absurd h (by simp)

/-- Padding never changes the layout list, and appends exactly the number
of requested slides, all created from the selected layout. -/
theorem ensureSlides_ok (prs prs2 : Prs) (target : Int)
    (h : ensureSlides prs target = Except.ok prs2) :
    prs2.layouts = prs.layouts ∧
    prs2.slides = prs.slides ++
      List.replicate (target - (prs.slides.length : Int)).toNat
        { layoutIdx := selectLayout prs.layouts, shapes := [] } :=
  padSlides_ok _ prs prs2 h

/-- C4: the layout used for every padding slide is selected by the policy
of app.py lines 82-86 — the first layout name containing blank or title
case-insensitively, with the fixed default index 5 when no name matches —
and every slide appended while the document is below the target position
is created from exactly that layout. -/
theorem padding_layout_policy (names : List String) :
    ((∀ n ∈ names, layoutMatches n = false) → selectLayout names = 5) ∧
    (∀ i, i < names.length → layoutMatches (names.getD i "") = true →
      (∀ j, j < i → layoutMatches (names.getD j "") = false) →
      selectLayout names = i) ∧
    (∀ prs target prs2, prs.layouts = names →
      ensureSlides prs target = Except.ok prs2 →
      ∀ s ∈ prs2.slides.drop prs.slides.length, s.layoutIdx = selectLayout names) := by
  refine ⟨fun h => selectLayoutFrom_no_match 0 names h,
    fun i hi hm hb => by simpa using selectLayoutFrom_first_match names i 0 hi hm hb, ?_⟩
  intro prs target prs2 hl he s hs
  obtain ⟨-, hslides⟩ := padSlides_ok _ prs prs2 he
  rw [hslides, List.drop_left] at hs
  rw [List.eq_of_mem_replicate hs, hl]

/-- C4 witness: the policy applied at concrete layout-name lists — a
match at index 1, the fallback 5 when nothing matches, and a padded
document whose appended slides carry the selected layout index. -/
theorem padding_layout_policy_witness :
    selectLayout ["agenda", "Blank Layout", "Title Only"] = 1 ∧
    selectLayout ["agenda", "x"] = 5 ∧
    ({ layoutIdx := 0, shapes := [] } : Slide).layoutIdx = selectLayout ["Blank"] :=
  ⟨(padding_layout_policy ["agenda", "Blank Layout", "Title Only"]).2.1 1 (by decide)
      (by decide)
      (fun j hj => by
        have hj0 : j = 0 := by omega
        subst hj0
        decide),
   (padding_layout_policy ["agenda", "x"]).1 (by decide),
   (padding_layout_policy ["Blank"]).2.2 ⟨[], ["Blank"]⟩ 2
      ⟨[⟨0, []⟩, ⟨0, []⟩], ["Blank"]⟩ rfl rfl ⟨0, []⟩ (by decide)⟩

/-! ## Theorems: the cleanup sweep (claim C8) -/

theorem sweepLoop_eq (now maxAge : Int) (reg : Registry) :
    sweepLoop now maxAge reg =
      (reg.filter (fun p => !decide (maxAge < now - p.2.created)),
       (reg.filter (fun p => decide (maxAge < now - p.2.created))).length) := by
  induction reg with
  | nil => rfl
  | cons e rest ih =>
    simp only [sweepLoop, ih, List.filter_cons]
    by_cases h : maxAge < now - e.2.created <;> simp [h]

/-- C8: the sweep with the fixed 3600-second threshold keeps exactly the
entries whose age is at most 3600 seconds (in order); every surviving
entry has age at most 3600 and every dropped entry had age above 3600;
the removed count reported in the message is the number of entries
deleted; and the reported remaining count is the true post-sweep registry
size. -/
theorem cleanup_sweep_exact (reg : Registry) (now : Int) :
    (cleanup reg now).1 = reg.filter (fun p => !decide (3600 < now - p.2.created)) ∧
    (∀ p ∈ (cleanup reg now).1, now - p.2.created ≤ 3600) ∧
    (∀ p ∈ reg, p ∉ (cleanup reg now).1 → 3600 < now - p.2.created) ∧
    (sweepLoop now 3600 reg).2 =
      (reg.filter (fun p => decide (3600 < now - p.2.created))).length ∧
    (sweepLoop now 3600 reg).2 + (cleanup reg now).1.length = reg.length ∧
    (cleanup reg now).2.remaining = (cleanup reg now).1.length := by
  have hs := sweepLoop_eq now 3600 reg
  have h1 : (cleanup reg now).1 =
      reg.filter (fun p => !decide (3600 < now - p.2.created)) := by
    simp [cleanup, hs]
  refine ⟨h1, ?_, ?_, by simp [hs], ?_, by simp [cleanup]⟩
  · intro p hp
    rw [h1] at hp
    have := List.of_mem_filter hp
    simpa using this
  · intro p hp hnp
    rw [h1] at hnp
    by_contra hc
    exact hnp (List.mem_filter.mpr ⟨hp, by simpa using hc⟩)
  · rw [h1, hs]
    simpa using length_filter_not_add (fun p => decide (3600 < now - p.2.created)) reg

/-- C8 witness: a two-entry registry swept at time 4000 — the entry
created at time 0 is dropped (age 4000), the one created at 3000 survives
(age 1000). -/
theorem cleanup_sweep_exact_witness :
    4000 - (("b", (⟨⟨[], []⟩, "chart_b.pptx", 3000, pptxContentType⟩ : Artifact))).2.created
        ≤ 3600 ∧
    3600 < 4000 - (("a", (⟨⟨[], []⟩, "chart_a.pptx", 0, pptxContentType⟩ : Artifact))).2.created :=
  ⟨(cleanup_sweep_exact
      [("a", ⟨⟨[], []⟩, "chart_a.pptx", 0, pptxContentType⟩),
       ("b", ⟨⟨[], []⟩, "chart_b.pptx", 3000, pptxContentType⟩)] 4000).2.1
      ("b", ⟨⟨[], []⟩, "chart_b.pptx", 3000, pptxContentType⟩) (by decide),
   (cleanup_sweep_exact
      [("a", ⟨⟨[], []⟩, "chart_a.pptx", 0, pptxContentType⟩),
       ("b", ⟨⟨[], []⟩, "chart_b.pptx", 3000, pptxContentType⟩)] 4000).2.2.1
      ("a", ⟨⟨[], []⟩, "chart_a.pptx", 0, pptxContentType⟩) (by decide) (by decide)⟩

/-! ## Theorems: slide count and chart placement (claim C5) -/

/-- C5: for every request whose slide position parses to p at least 1,
whenever the handler body succeeds the produced document has exactly
max(k, p) slides, where k is the base document slide count (so position 5
on the empty default document gives 5 slides), and the configured chart is
the last shape of the slide at 0-based index p - 1. -/
theorem slide_count_and_chart_insertion
    (req : Request) (f : UploadedData) (p : Int) (cats : List Cell)
    (vals : List PyFloat) (ct : String) (out : Prs)
    (hf : req.dataFile = some f)
    (hp : parseSlidePosition req.slidePosition = Except.ok p)
    (h1 : 1 ≤ p)
    (hex : extractSeries f.table = Except.ok (cats, vals))
    (hcore : generateChartCore req = Except.ok (GenResult.success ct out)) :
    out.slides.length = max (basePrs req).slides.length p.toNat ∧
    ct = req.chartType.getD "bar" ∧
    ∃ sl, out.slides.get? (p.toNat - 1) = some sl ∧
      sl.shapes.getLast? = some (buildChart (req.chartType.getD "bar") cats vals) := by
  simp only [generateChartCore, hf, hp] at hcore
  split at hcore
  case isFalse => exact absurd hcore (by simp)
  case isTrue hsup =>
  simp only [afterLoad] at hcore
  rcases he : ensureSlides (basePrs req) p with e | prs
  · simp only [he] at hcore
    exact absurd hcore (by simp)
  · simp only [he] at hcore
    rcases hi : pyIndex prs.slides.length (p - 1) with _ | si
    · simp only [hi] at hcore
      exact absurd hcore (by simp)
    · simp only [hi, hex, Except.ok.injEq, GenResult.success.injEq] at hcore
      obtain ⟨hct, hout⟩ := hcore
      obtain ⟨hlay, hsl⟩ := ensureSlides_ok (basePrs req) prs p he
      have hlen : prs.slides.length =
          (basePrs req).slides.length +
            (p - ((basePrs req).slides.length : Int)).toNat := by
        rw [hsl]
        simp
      have h0 : 0 ≤ p - 1 := by omega
      rw [pyIndex, if_pos h0] at hi
      split at hi
      case isFalse => exact absurd hi (by simp)
      case isTrue hlt =>
      have hsi : si = (p - 1).toNat := by
        have := hi
        simp only [Option.some.injEq] at this
        omega
      have hsilt : si < prs.slides.length := by omega
      subst hout
      refine ⟨?_, hct.symm, ?_⟩
      · simp only [insertChartAt, List.length_set]
        omega
      · refine ⟨{ prs.slides.getD si ⟨0, []⟩ with
            shapes := (prs.slides.getD si ⟨0, []⟩).shapes ++
              [buildChart (req.chartType.getD "bar") cats vals] }, ?_,
          List.getLast?_concat _⟩
        have hidx : p.toNat - 1 = si := by omega
        rw [hidx]
        simp only [insertChartAt]
        exact list_get?_set_self _ _ _ hsilt

/-- Concrete two-column table for the C5 witness. -/
def dfW5 : DataFrame :=
  ⟨2, [[Cell.text "a", Cell.num 1], [Cell.text "b", Cell.text "45%"]], by decide⟩

/-- Concrete request for the C5 witness: no template (empty default base
document) and slide position 5. -/
def reqW5 : Request :=
  ⟨some ⟨"data.csv", dfW5⟩, none, none, some "5"⟩

/-- The document the handler body produces for the C5 witness request. -/
def outW5 : Prs :=
  match generateChartCore reqW5 with
  | Except.ok (GenResult.success _ doc) => doc
  | _ => ⟨[], []⟩

/-- C5 witness: slide position 5 on the empty default base document gives
a five-slide document with the chart as last shape of slide index 4. -/
theorem slide_count_and_chart_insertion_witness :
    outW5.slides.length = max (basePrs reqW5).slides.length (5 : Int).toNat ∧
    "bar" = reqW5.chartType.getD "bar" ∧
    ∃ sl, outW5.slides.get? ((5 : Int).toNat - 1) = some sl ∧
      sl.shapes.getLast? = some (buildChart (reqW5.chartType.getD "bar")
        [Cell.text "a", Cell.text "b"] [PyFloat.num 1, PyFloat.num 45]) :=
  slide_count_and_chart_insertion reqW5 ⟨"data.csv", dfW5⟩ 5
    [Cell.text "a", Cell.text "b"] [PyFloat.num 1, PyFloat.num 45] "bar" outW5
    rfl rfl (by decide) rfl rfl

/-! ## Theorems: the insufficient-columns 400 (claim C3) -/

/-- One-column table for the C3 counterexample. -/
def dfC3 : DataFrame := ⟨1, [[Cell.text "only"]], by decide⟩

/-- C3 counterexample request: a loadable one-column table together with
slide position 0 and no template. -/
def reqC3 : Request := ⟨some ⟨"d.csv", dfC3⟩, none, none, some "0"⟩

/-- C3 counterexample: the claim says the handler returns the
insufficient-columns 400 whenever the loaded table has fewer than two
columns. Here the table has one column, yet the handler answers 500: with
slide position 0 and the empty default document, resolving the slide at
index -1 raises IndexError at app.py line 91, before the column check of
line 98 is reached. -/
theorem insufficient_columns_counterexample :
    loadedTable reqC3 = some dfC3 ∧
    dfC3.ncols < 2 ∧
    (generateChart reqC3 [] "20240101000000" 0).2 ≠ insufficientResp ∧
    (generateChart reqC3 [] "20240101000000" 0).2.status = 500 :=
  ⟨rfl, by decide, by decide, rfl⟩

/-- C3 (amended): series extraction fails exactly when the loaded table
has fewer than two columns; the handler produces the insufficient-columns
400 only for such tables; and conversely, a table with fewer than two
columns yields that 400 provided the slide-preparation steps before the
column check succeed (the position parses and the padded document resolves
the target slide index) — otherwise the request ends as a 500 before the
check. -/
theorem insufficient_columns_response
    (req : Request) (table : DataFrame) (reg : Registry) (nowKey : String) (now : Int)
    (hload : loadedTable req = some table) :
    ((∃ e, extractSeries table = Except.error e) ↔ table.ncols < 2) ∧
    ((generateChart req reg nowKey now).2 = insufficientResp → table.ncols < 2) ∧
    (table.ncols < 2 →
      (∃ p prs i, parseSlidePosition req.slidePosition = Except.ok p ∧
        ensureSlides (basePrs req) p = Except.ok prs ∧
        pyIndex prs.slides.length (p - 1) = some i) →
      (generateChart req reg nowKey now).2 = insufficientResp) := by
  rcases hdf : req.dataFile with _ | f
  · rw [loadedTable, hdf] at hload
    exact absurd hload (by simp)
  simp only [loadedTable, hdf] at hload
  by_cases hsup : supportedData f.filename = true
  case neg =>
    rw [if_neg hsup] at hload
    exact absurd hload (by simp)
  rw [if_pos hsup] at hload
  have hft : f.table = table := by simpa using hload
  refine ⟨?_, ?_, ?_⟩
  · by_cases hc : table.ncols < 2 <;> simp [extractSeries, hc]
  · intro hresp
    rcases hc : generateChartCore req with e | gr
    · simp only [generateChart, hc] at hresp
      exact absurd hresp (by simp [insufficientResp])
    rcases gr with m | ⟨ct, doc⟩
    · simp only [generateChart, hc, insufficientResp, JsonResp.mk.injEq,
        Option.some.injEq] at hresp
      -- hresp : the returned message is the insufficient-columns message
      simp only [generateChartCore, hdf] at hc
      rcases hpp : parseSlidePosition req.slidePosition with e | p
      · simp only [hpp] at hc
        exact absurd hc (by simp)
      simp only [hpp, if_pos hsup, afterLoad] at hc
      rcases hens : ensureSlides (basePrs req) p with e | prs
      · simp only [hens] at hc
        exact absurd hc (by simp)
      simp only [hens] at hc
      rcases hidx : pyIndex prs.slides.length (p - 1) with _ | si
      · simp only [hidx] at hc
        exact absurd hc (by simp)
      simp only [hidx] at hc
      rcases hx : extractSeries f.table with m2 | pair
      · rw [hft] at hx
        rw [extractSeries] at hx
        split at hx
        next hlt => exact hlt
        next => exact absurd hx (by simp)
      · simp only [hx] at hc
        exact absurd hc (by simp)
    · simp only [generateChart, hc] at hresp
      exact absurd hresp (by simp [insufficientResp])
  · intro hlt hprep
    obtain ⟨p, prs, i, hpp, hens, hidx⟩ := hprep
    have hx : extractSeries f.table = Except.error insufficientColumnsMsg := by
      rw [hft]
      simp [extractSeries, hlt]
    have hcoreval : generateChartCore req =
        Except.ok (GenResult.clientError insufficientColumnsMsg) := by
      simp only [generateChartCore, hdf, hpp, if_pos hsup, afterLoad, hens, hidx, hx]
    simp [generateChart, hcoreval, insufficientResp]

/-- One-column table for the C3 witness. -/
def dfC3W : DataFrame := ⟨1, [[Cell.text "x"]], by decide⟩

/-- C3 witness request: one-column table, default slide position, no
template. -/
def reqC3W : Request := ⟨some ⟨"w.csv", dfC3W⟩, none, none, none⟩

/-- C3 witness: the amended statement applied at a concrete one-column
request whose slide preparation succeeds, yielding the 400. -/
theorem insufficient_columns_response_witness :
    (generateChart reqC3W [] "20240101000000" 0).2 = insufficientResp :=
  (insufficient_columns_response reqC3W dfC3W [] "20240101000000" 0 rfl).2.2 (by decide)
    ⟨1, ⟨[⟨0, []⟩], defaultLayoutNames⟩, 0, rfl, rfl, rfl⟩

/-! ## Theorems: the slide position invariant (claim C10) -/

/-- Two-column one-row table for the C10 counterexample. -/
def dfC10 : DataFrame := ⟨2, [[Cell.text "a", Cell.num 1]], by decide⟩

/-- One-slide template for the C10 counterexample. -/
def prsC10 : Prs := ⟨[⟨0, []⟩], ["Blank"]⟩

/-- C10 counterexample request: slidePosition field 0 with a one-slide
template. -/
def reqC10 : Request := ⟨some ⟨"d.csv", dfC10⟩, some ⟨"t.pptx", prsC10⟩, none, some "0"⟩

/-- C10 counterexample: the claim says every processed chart request has
target slide position at least 1. The form value 0 parses to slide
position 0, which is below 1, and the request is still processed to a 200
success (the chart lands in the template slide through Python negative
indexing at index -1): no positivity check exists at app.py line 47. -/
theorem slide_position_counterexample :
    parseSlidePosition reqC10.slidePosition = Except.ok 0 ∧
    ¬(1 ≤ (0 : Int)) ∧
    (generateChart reqC10 [] "20240101000000" 0).2.status = 200 :=
  ⟨rfl, by decide, rfl⟩

/-- C10 (amended): the slide position defaults to 1 when the field is
absent, but a present field is parsed and used without any positivity
check — whatever integer it parses to, including zero and negatives, is
the position used. The invariant of at least 1 therefore holds only for
requests that omit the field or supply a positive value. -/
theorem slide_position_parse_amended (field : Option String) (pos : Int)
    (h : parseSlidePosition field = Except.ok pos) :
    (field = none ∧ pos = 1) ∨ (∃ s, field = some s ∧ pyInt s = some pos) := by
  cases field with
  | none =>
    simp only [parseSlidePosition, Except.ok.injEq] at h
    exact Or.inl ⟨rfl, h.symm⟩
  | some s =>
    refine Or.inr ⟨s, rfl, ?_⟩
    rw [parseSlidePosition] at h
    rcases hp : pyInt s with _ | n
    · rw [hp] at h
      exact absurd h (by simp)
    · rw [hp] at h
      simp only [Except.ok.injEq] at h
      rw [h]

/-- C10 witness: the amended statement applied at the absent field, which
defaults to position 1. -/
theorem slide_position_parse_amended_witness :
    ((none : Option String) = none ∧ (1 : Int) = 1) ∨
    (∃ s, (none : Option String) = some s ∧ pyInt s = some 1) :=
  slide_position_parse_amended none 1 rfl

end ChartGen
